import Mathlib

/-!
Verification development for the DendyWM kiosk window manager.

The repository implements the same kiosk policy three times:
* `src/dendy_wm/dendy_wm.c` — a wlroots/Wayland compositor (`KioskCompositor`,
  `KioskWindow`, `KioskKeyboard`), modelled below with the `wl` prefix;
* a minimal Xlib window manager (the `window_zero` variant), modelled with the
  `x1` prefix;
* a timer-based Xlib window manager (`WindowManager` with `client_windows_`,
  `initial_window_`, `super_key_pressed_`, 2-second hold), modelled with the
  `x2` prefix.  A third Xlib variant shares its configure-request handler.

Each model is a shallow embedding: the mutable program state becomes a
structure, each event handler becomes a pure function from state and event to
the new state together with the list of side-effecting backend/OS calls the
handler issues (an `XAction` / `WlAction` list).  Times are natural numbers:
milliseconds for the X11 models (`std::chrono` durations), seconds for the
wlroots model (`timespec.tv_sec`); both clocks are monotone, so the
truncated natural subtraction `now - start` agrees with the signed
arithmetic of the source.
-/

namespace DendyWM

/-! ## wlroots compositor model (src/dendy_wm/dendy_wm.c) -/

/-- One `struct KioskWindow`: the scene/toplevel handle is abstracted to a
numeric id (`wid`), with the `mapped` flag and the owner `pid` field.
`pid = 0` is the calloc default; the home window gets `pid = home_pid`. -/
structure KioskWindow where
  wid : Nat
  mapped : Bool
  pid : Nat
deriving DecidableEq

/-- The parts of `struct KioskCompositor` the kiosk policy reads and writes:
the window list (`wl_list windows`, head insertion), the `first_window`
flag and `home_pid`. -/
structure KioskCompositor where
  windows : List KioskWindow
  firstWindow : Bool
  homePid : Nat
deriving DecidableEq

/-- Side effects the wlroots handlers issue.  Process-management effects
(`installSignalHandler`, `reapChild`) are included so their absence from
every trace is expressible; the code never emits them. -/
inductive WlAction where
  | sendClose (wid : Nat)
  | forwardKey (timeMsec : Nat) (keycode : Nat) (pressed : Bool)
  | setDisplayEnv (socket : String)
  | forkExec (path : String)
  | runEventLoop
  | installSignalHandler (signum : Nat)
  | reapChild
  | exitProcess (code : Nat)
deriving DecidableEq

/-- Backend events dispatched to the wlroots handlers. -/
inductive WlEvent where
  | newXdgSurface (wid : Nat) (toplevel : Bool)
  | mapWindow (wid : Nat)
  | unmapWindow (wid : Nat)
  | destroyWindow (wid : Nat)
deriving DecidableEq

/-- Handler `new_xdg_surface`: non-toplevel roles are ignored; a new window
is allocated with `pid = 0`, then, if `first_window` is still set, the new
window's `pid` becomes `home_pid` and the flag is cleared; finally the
window is inserted at the head of the compositor's window list. -/
def newXdgSurface (c : KioskCompositor) (wid : Nat) (toplevel : Bool) :
    KioskCompositor :=
  if !toplevel then c
  else
    let pid := if c.firstWindow then c.homePid else 0
    { c with
      windows := ⟨wid, false, pid⟩ :: c.windows
      firstWindow := if c.firstWindow then false else c.firstWindow }

/-- Handler `window_map` / `window_unmap`: flips the `mapped` flag of the
window owning the surface. -/
def wlSetMapped (c : KioskCompositor) (wid : Nat) (m : Bool) :
    KioskCompositor :=
  { c with
    windows := c.windows.map fun w =>
      if w.wid = wid then { w with mapped := m } else w }

/-- Handler `window_destroy`: unlinks the window from the compositor's list
and frees it.  It performs no respawn and no other side effect. -/
def windowDestroy (c : KioskCompositor) (wid : Nat) : KioskCompositor :=
  { c with windows := c.windows.filter fun w => w.wid ≠ wid }

/-- One dispatch step of the wlroots event loop, returning the new
compositor state and the side effects issued by the handler.  None of the
surface-lifecycle handlers issues any action. -/
def wlStep (c : KioskCompositor) : WlEvent → KioskCompositor × List WlAction
  | .newXdgSurface wid top => (newXdgSurface c wid top, [])
  | .mapWindow wid => (wlSetMapped c wid true, [])
  | .unmapWindow wid => (wlSetMapped c wid false, [])
  | .destroyWindow wid => (windowDestroy c wid, [])

/-- Compositor state right after `main` finishes startup: empty window
list, `first_window = true`, and `home_pid` the pid `fork` returned to the
parent. -/
def wlInit (homePid : Nat) : KioskCompositor :=
  { windows := [], firstWindow := true, homePid := homePid }

/-- Reachable compositor states: the initial state (with the positive pid
`fork` returns in the parent; `fork` returning 0 is the child branch and a
negative result aborts `main` before the loop) closed under event steps. -/
inductive WlReachable : KioskCompositor → Prop
  | init (p : Nat) (hp : 0 < p) : WlReachable (wlInit p)
  | step (c : KioskCompositor) (e : WlEvent) :
      WlReachable c → WlReachable (wlStep c e).1

/-- Number of live windows marked as the home window (`pid == home_pid`). -/
def homeCount (c : KioskCompositor) : Nat :=
  c.windows.countP fun w => w.pid == c.homePid

/-- Inductive invariant of the wlroots compositor: the home pid is the
positive pid of the forked child, at most one live window carries it, and
while `first_window` is still set no window carries it. -/
def wlInv (c : KioskCompositor) : Prop :=
  0 < c.homePid ∧ homeCount c ≤ 1 ∧ (c.firstWindow = true → homeCount c = 0)

/-! ## wlroots keyboard handler (keyboard_handle_key) -/

/-- Keysym `XKB_KEY_Return` (0xff0d). -/
def xkbKeyReturn : Nat := 65293

/-- Keysym `XKB_KEY_KP_Enter` (0xff8d). -/
def xkbKeyKpEnter : Nat := 65421

/-- The hotkey test of `keyboard_handle_key`:
`syms[i] == XKB_KEY_Return || syms[i] == XKB_KEY_KP_Enter`. -/
def isHotkeySym (sym : Nat) : Bool :=
  sym == xkbKeyReturn || sym == xkbKeyKpEnter

/-- The hotkey-relevant fields of `struct KioskKeyboard`:
`enter_held` and `enter_press_time` (its `tv_sec`, monotone clock). -/
structure KioskKeyboard where
  enterHeld : Bool
  enterPressTime : Nat
deriving DecidableEq

/-- The close-all loop inside `keyboard_handle_key`: a
`wlr_xdg_toplevel_send_close` for every window whose `pid` differs from
`home_pid`, in list order. -/
def wlCloseAllExceptHome (c : KioskCompositor) : List WlAction :=
  (c.windows.filter fun w => w.pid ≠ c.homePid).map fun w => .sendClose w.wid

/-- Body of the per-keysym loop of `keyboard_handle_key`, threading the
keyboard state, the `handled` flag and the actions issued so far.  On a
press, `enter_held`/`enter_press_time` are set only when the key was not
already held; the hold duration in whole seconds is then compared against
2 and, when reached, the close-all loop runs and `handled` is set.  On a
release, `enter_held` is cleared. -/
def wlKeySymStep (c : KioskCompositor) (pressed : Bool) (now : Nat)
    (acc : KioskKeyboard × Bool × List WlAction) (sym : Nat) :
    KioskKeyboard × Bool × List WlAction :=
  let (kb, handled, acts) := acc
  if isHotkeySym sym then
    if pressed then
      let kb' := if !kb.enterHeld then
          { enterHeld := true, enterPressTime := now } else kb
      if 2 ≤ now - kb'.enterPressTime then
        (kb', true, acts ++ wlCloseAllExceptHome c)
      else (kb', handled, acts)
    else ({ kb with enterHeld := false }, handled, acts)
  else (kb, handled, acts)

/-- Handler `keyboard_handle_key`: folds the per-keysym loop over the
keysyms of the event, then, when the event was not `handled`, forwards the
raw key event to the focused client through the seat
(`wlr_seat_keyboard_notify_key`). -/
def keyboardHandleKey (kb : KioskKeyboard) (c : KioskCompositor)
    (syms : List Nat) (keycode timeMsec : Nat) (pressed : Bool) (now : Nat) :
    KioskKeyboard × List WlAction :=
  let r := syms.foldl (wlKeySymStep c pressed now) (kb, false, [])
  if !r.2.1 then (r.1, r.2.2 ++ [.forwardKey timeMsec keycode pressed])
  else (r.1, r.2.2)

/-! ## Xlib calls issued by the two X11 window managers -/

/-- Side effects of the X11 handlers.  As with `WlAction`, the
process-management constructors are present so that their absence from the
program's traces can be stated. -/
inductive XAction where
  | sendDeleteMessage (w : Nat)
  | destroyWindow (w : Nat)
  | raiseWindow (w : Nat)
  | setFocus (w : Nat)
  | moveResize (w x y width height : Nat)
  | mapWindow (w : Nat)
  | configureWindow (w : Nat)
  | flushDisplay
  | launch (path : String)
  | grabHotkey
  | forkExec (path : String)
  | usleep (usec : Nat)
  | enterEventLoop
  | installSignalHandler (signum : Nat)
  | reapChild
  | exitProcess (code : Nat)
deriving DecidableEq

/-! ## Simple Xlib window manager (the window_zero variant) -/

/-- State of the simple Xlib window manager: the `window_zero` global
(`0` plays the X11 `None`), the `super_key_down` flag, the screen size and
the startup argument.  `windows` models the X server's list of children of
the root window, which the code reads back with `XQueryTree`. -/
structure X1State where
  windowZero : Nat
  superKeyDown : Bool
  windows : List Nat
  screenW : Nat
  screenH : Nat
  homeKeycode : Nat
  homePath : String
deriving DecidableEq

/-- Events of the simple Xlib event loop.  Key events carry the server
timestamp, which this implementation ignores. -/
inductive X1Event where
  | mapRequest (w : Nat)
  | keyPress (keycode timeMsec : Nat)
  | keyRelease (keycode timeMsec : Nat)
  | destroyNotify (w : Nat)
  | configureRequest (w : Nat)
deriving DecidableEq

/-- Function `close_all_other_windows`: queries the root window's children
and sends a `WM_DELETE_WINDOW` client message to every child other than
`window_zero` (there is no forced destroy in this variant). -/
def x1CloseAllOtherWindows (s : X1State) : List XAction :=
  (s.windows.filter fun w => w ≠ s.windowZero).map .sendDeleteMessage

/-- One dispatch step of the simple Xlib event loop.  `MapRequest` adopts
the window as `window_zero` when none is set, then forces it fullscreen,
maps, raises and focuses it (the window joining the server's tree is
environment bookkeeping).  `KeyPress` of the grabbed key runs the
close-all pass on the initial press only; `KeyRelease` clears the flag.
`DestroyNotify` of `window_zero` resets it and relaunches the home
application.  `ConfigureRequest` re-asserts the fullscreen geometry
(modelled separately for the geometry claims). -/
def x1Step (s : X1State) : X1Event → X1State × List XAction
  | .mapRequest w =>
    let s' := if s.windowZero = 0 then { s with windowZero := w } else s
    ({ s' with windows :=
        if w ∈ s'.windows then s'.windows else s'.windows ++ [w] },
      [.moveResize w 0 0 s.screenW s.screenH, .mapWindow w,
        .raiseWindow w, .setFocus w])
  | .keyPress kc _t =>
    if kc = s.homeKeycode then
      if !s.superKeyDown then
        ({ s with superKeyDown := true },
          x1CloseAllOtherWindows s ++
            (if s.windowZero ≠ 0 then
              [.raiseWindow s.windowZero, .setFocus s.windowZero] else []))
      else (s, [])
    else (s, [])
  | .keyRelease kc _t =>
    (if kc = s.homeKeycode then { s with superKeyDown := false } else s, [])
  | .destroyNotify w =>
    let s' := { s with windows := s.windows.erase w }
    if w = s.windowZero then
      ({ s' with windowZero := 0 }, [.launch s.homePath])
    else (s', [])
  | .configureRequest w => (s, [.configureWindow w])

/-- The simple Xlib event loop run over a list of events, accumulating the
issued actions. -/
def x1Run (s : X1State) (es : List X1Event) : X1State × List XAction :=
  es.foldl (fun acc e =>
    let r := x1Step acc.1 e
    (r.1, acc.2 ++ r.2)) (s, [])

/-! ## Timer-based Xlib window manager (WindowManager with 2 s hold) -/

/-- Keysym `XK_Super_L` (0xffeb). -/
def xkSuperL : Nat := 65515

/-- State of the timer-based Xlib `WindowManager`: `client_windows_` in
stacking order (last = topmost), `initial_window_` (`0` plays the X11
`None`), the `super_key_pressed_` flag and `super_press_start_` in
milliseconds of the monotone clock. -/
structure X2State where
  clientWindows : List Nat
  initialWindow : Nat
  superPressed : Bool
  pressStart : Nat
  screenW : Nat
  screenH : Nat
deriving DecidableEq

/-- Method `close_all_except_initial`, as a function of the two fields it
reads: early return when no initial window is set or no window is tracked;
otherwise copy the non-initial windows, then for each send the polite
`WM_DELETE_WINDOW` client message immediately followed by a forceful
`XDestroyWindow`, then flush and re-raise/focus the initial window. -/
def x2CloseAllExceptInitial (windows : List Nat) (initial : Nat) :
    List XAction :=
  if initial = 0 ∨ windows = [] then []
  else
    let toClose := windows.filter fun w => w ≠ initial
    toClose.flatMap (fun w => [.sendDeleteMessage w, .destroyWindow w]) ++
      [.flushDisplay] ++
      (if initial ≠ 0 then [.raiseWindow initial, .setFocus initial] else [])

/-- Method `handle_key_press`: on the Super keysym, start the hold timer
only when the key was not already marked pressed. -/
def x2HandleKeyPress (s : X2State) (sym now : Nat) : X2State :=
  if sym = xkSuperL then
    if !s.superPressed then { s with superPressed := true, pressStart := now }
    else s
  else s

/-- Method `handle_key_release`: on the Super keysym, clear the pressed
flag (the code also logs the held duration). -/
def x2HandleKeyRelease (s : X2State) (sym : Nat) : X2State :=
  if sym = xkSuperL then
    if s.superPressed then { s with superPressed := false } else s
  else s

/-- Method `handle_map_request`: the first window ever mapped (no initial
window set and the tracked list still empty) becomes `initial_window_`;
the window is forced fullscreen, mapped, appended to `client_windows_`,
raised and focused. -/
def x2HandleMapRequest (s : X2State) (w : Nat) : X2State × List XAction :=
  let s' := if s.initialWindow = 0 ∧ s.clientWindows = [] then
      { s with initialWindow := w } else s
  ({ s' with clientWindows := s'.clientWindows ++ [w] },
    [.moveResize w 0 0 s.screenW s.screenH, .mapWindow w,
      .raiseWindow w, .setFocus w])

/-- Method `handle_window_destroyed`: if the window is tracked, remove it;
when the list becomes empty, close the display and `exit(0)`; otherwise
focus and raise the topmost remaining window (`client_windows_.back()`). -/
def x2HandleWindowDestroyed (s : X2State) (w : Nat) : X2State × List XAction :=
  if w ∈ s.clientWindows then
    let rest := s.clientWindows.erase w
    if rest = [] then
      ({ s with clientWindows := rest }, [.exitProcess 0])
    else
      let top := rest.getLast?.getD 0
      ({ s with clientWindows := rest }, [.setFocus top, .raiseWindow top])
  else (s, [])

/-- Events of the timer-based Xlib event loop.  `tick` is the 50 ms
`select` timeout expiring, which the loop only waits for while
`super_key_pressed_` is set; key events carry the looked-up keysym and the
monotone-clock reading taken inside the handler. -/
inductive X2Event where
  | mapRequest (w : Nat)
  | configureRequest (w : Nat)
  | destroyNotify (w : Nat)
  | unmapNotify (w : Nat) (sendEvent : Bool)
  | keyPress (sym now : Nat)
  | keyRelease (sym now : Nat)
  | tick (now : Nat)
deriving DecidableEq

/-- One iteration of the timer-based event loop.  On a timeout tick while
the Super key is marked pressed, a hold of at least 2000 ms triggers
`close_all_except_initial` and clears the pressed flag.  Synthetic
`UnmapNotify` events (`send_event` set) are ignored; real ones are handled
like destruction. -/
def x2Step (s : X2State) : X2Event → X2State × List XAction
  | .mapRequest w => x2HandleMapRequest s w
  | .configureRequest w => (s, [.configureWindow w])
  | .destroyNotify w => x2HandleWindowDestroyed s w
  | .unmapNotify w se =>
    if se then (s, []) else x2HandleWindowDestroyed s w
  | .keyPress sym now => (x2HandleKeyPress s sym now, [])
  | .keyRelease sym _now => (x2HandleKeyRelease s sym, [])
  | .tick now =>
    if s.superPressed ∧ 2000 ≤ now - s.pressStart then
      ({ s with superPressed := false },
        x2CloseAllExceptInitial s.clientWindows s.initialWindow)
    else (s, [])

/-- The timer-based event loop run over a list of events. -/
def x2Run (s : X2State) (es : List X2Event) : X2State × List XAction :=
  es.foldl (fun acc e =>
    let r := x2Step acc.1 e
    (r.1, acc.2 ++ r.2)) (s, [])

/-- Events that may occur strictly inside a hold gesture that started at
time `t0`: further key-press events (auto-repeat keydowns included) and
timeout ticks that fire before the 2000 ms threshold is reached. -/
def x2HoldEvent (t0 : Nat) : X2Event → Bool
  | .keyPress _ _ => true
  | .tick now => decide (now - t0 < 2000)
  | _ => false

/-! ## ConfigureRequest handling and its geometry effect -/

/-- An `XConfigureRequestEvent` together with the geometry values the
client requested; the `mask` bits are the event's `value_mask`
(`CWX`, `CWY`, `CWWidth`, `CWHeight`, `CWBorderWidth`, `CWSibling`,
`CWStackMode`). -/
structure ConfigRequest where
  window : Nat
  (reqX reqY : Int)
  (reqWidth reqHeight reqBorder : Nat)
  (maskX maskY maskWidth maskHeight maskBorder maskSibling maskStack : Bool)
  (above detail : Nat)
deriving DecidableEq

/-- An `XWindowChanges` value as filled in by the handlers. -/
structure WindowChanges where
  (x y : Int)
  (width height border : Nat)
  (sibling stackMode : Nat)
deriving DecidableEq

/-- The bits of a `value_mask` passed to `XConfigureWindow`. -/
structure ChangeMask where
  (maskX maskY maskWidth maskHeight maskBorder maskSibling maskStack : Bool)
deriving DecidableEq

/-- A window's geometry as held by the X server. -/
structure Geometry where
  (x y : Int)
  (width height border : Nat)
deriving DecidableEq

/-- Semantics of `XConfigureWindow` on the window's geometry: every
component selected by the mask is replaced by the corresponding field of
the `XWindowChanges`; `sibling`/`stack_mode` affect stacking only. -/
def applyChanges (g : Geometry) (m : ChangeMask) (ch : WindowChanges) :
    Geometry :=
  { x := if m.maskX then ch.x else g.x
    y := if m.maskY then ch.y else g.y
    width := if m.maskWidth then ch.width else g.width
    height := if m.maskHeight then ch.height else g.height
    border := if m.maskBorder then ch.border else g.border }

/-- Method `handle_configure_request` of the timer-based `WindowManager`:
the changes are origin 0,0, the full screen size, border 0, and the
client's `above`/`detail` for stacking; the `value_mask` is the client's
mask with the sibling/stack bits removed, unless the client requested
stacking, in which case the client's full mask is used.  Returns the mask
and changes passed to `XConfigureWindow`. -/
def x2HandleConfigureRequest (sw sh : Nat) (r : ConfigRequest) :
    ChangeMask × WindowChanges :=
  let changes : WindowChanges :=
    { x := 0, y := 0, width := sw, height := sh, border := 0,
      sibling := r.above, stackMode := r.detail }
  let reqMask : ChangeMask :=
    ⟨r.maskX, r.maskY, r.maskWidth, r.maskHeight, r.maskBorder,
      r.maskSibling, r.maskStack⟩
  let valueMask :=
    if r.maskSibling || r.maskStack then reqMask
    else { reqMask with maskSibling := false, maskStack := false }
  (valueMask, changes)

/-- Geometry of the window after the timer-based handler responds to a
configure request, given the window's prior geometry. -/
def x2GeomAfterConfigure (sw sh : Nat) (r : ConfigRequest) (g : Geometry) :
    Geometry :=
  let mc := x2HandleConfigureRequest sw sh r
  applyChanges g mc.1 mc.2

/-- The `handle_configure_request` of the third (earlier Xlib) variant:
same fullscreen changes, but the client's `value_mask` is passed to
`XConfigureWindow` unchanged. -/
def x3HandleConfigureRequest (sw sh : Nat) (r : ConfigRequest) :
    ChangeMask × WindowChanges :=
  ( ⟨r.maskX, r.maskY, r.maskWidth, r.maskHeight, r.maskBorder,
      r.maskSibling, r.maskStack⟩,
    { x := 0, y := 0, width := sw, height := sh, border := 0,
      sibling := r.above, stackMode := r.detail } )

/-- Geometry of the window after the third variant's handler responds. -/
def x3GeomAfterConfigure (sw sh : Nat) (r : ConfigRequest) (g : Geometry) :
    Geometry :=
  let mc := x3HandleConfigureRequest sw sh r
  applyChanges g mc.1 mc.2

/-- The ConfigureRequest case of the window_zero variant's event loop:
only the x, y, width and height fields of the stack-allocated
`XWindowChanges` are filled in (0, 0, screen width, screen height); the
`border_width`, `sibling` and `stack_mode` fields are read from
uninitialized stack memory, modelled by the free parameters `gb`, `gs`
and `gst`, and the client's `value_mask` is passed to `XConfigureWindow`
unchanged. -/
def x1HandleConfigureRequest (sw sh gb gs gst : Nat) (r : ConfigRequest) :
    ChangeMask × WindowChanges :=
  ( ⟨r.maskX, r.maskY, r.maskWidth, r.maskHeight, r.maskBorder,
      r.maskSibling, r.maskStack⟩,
    { x := 0, y := 0, width := sw, height := sh, border := gb,
      sibling := gs, stackMode := gst } )

/-- Geometry of the window after the window_zero variant's handler
responds, for a given content `gb`/`gs`/`gst` of the uninitialized
`XWindowChanges` fields. -/
def x1GeomAfterConfigure (sw sh gb gs gst : Nat) (r : ConfigRequest)
    (g : Geometry) : Geometry :=
  let mc := x1HandleConfigureRequest sw sh gb gs gst r
  applyChanges g mc.1 mc.2

/-! ## Startup: exclusive-rights acquisition and process-level traces -/

/-- The X11 `BadAccess` error code. -/
def badAccess : Nat := 10

/-- The `x_error_handler` of both Xlib `WindowManager` variants: a
`BadAccess` error sets the `another_wm_running` flag; any other error
leaves it unchanged. -/
def xErrorHandler (anotherWmRunning : Bool) (errorCode : Nat) : Bool :=
  if errorCode = badAccess then true else anotherWmRunning

/-- Outcome of running `main` of the timer-based Xlib variant, as far as
startup is concerned. -/
structure StartupResult where
  exitCode : Nat
  enteredEventLoop : Bool
  diagnostic : Option String
deriving DecidableEq

/-- Method `WindowManager::run` up to the event loop: after
`XSelectInput` on the root window and `XSync`, the errors the server
reported during the sync have been fed through `x_error_handler`; if the
flag is set, a `runtime_error` is thrown before anything else happens. -/
def x2RunStartup (startupErrors : List Nat) : Except String Unit :=
  let anotherWmRunning := startupErrors.foldl xErrorHandler false
  if anotherWmRunning then
    Except.error "Another window manager is already running."
  else Except.ok ()

/-- The `main` of the timer-based Xlib variant: a `runtime_error` escaping
`run` is caught, printed to standard error prefixed with a diagnostic, and
turns into exit status 1; otherwise the event loop is entered (and never
returns). -/
def x2MainStartup (startupErrors : List Nat) : StartupResult :=
  match x2RunStartup startupErrors with
  | .error msg =>
    { exitCode := 1, enteredEventLoop := false,
      diagnostic := some ("Fatal Error: " ++ msg) }
  | .ok _ =>
    { exitCode := 0, enteredEventLoop := true, diagnostic := none }

/-- Process-management effects of `main` of the wlroots compositor on the
successful startup path: set `WAYLAND_DISPLAY`, fork/exec the home
application, run the Wayland event loop.  No signal handler is installed
and no child is ever waited for. -/
def wlMainProcessActions (socket homeApp : String) : List WlAction :=
  [.setDisplayEnv socket, .forkExec homeApp, .runEventLoop]

/-- Process-management effects of `WindowManager::run` of the timer-based
Xlib variant after acquiring the display: grab the hotkey, fork/exec the
initial application, sleep 100 ms, enter the event loop. -/
def x2RunProcessActions (appPath : String) : List XAction :=
  [.grabHotkey, .forkExec appPath, .usleep 100000, .enterEventLoop]

/-- Process-management effects of `main` of the window_zero variant:
grab the hotkey, fork/exec the initial application, enter the event
loop. -/
def x1MainProcessActions (appPath : String) : List XAction :=
  [.grabHotkey, .forkExec appPath, .enterEventLoop]

/-- A window id is marked home in the window_zero variant when it is the
value stored in `window_zero` and that value is set (nonzero). -/
def x1IsHome (s : X1State) (w : Nat) : Prop :=
  s.windowZero = w ∧ w ≠ 0

/-- A window id is marked home in the timer-based variant when it is the
value stored in `initial_window_` and that value is set (nonzero). -/
def x2IsHome (s : X2State) (w : Nat) : Prop :=
  s.initialWindow = w ∧ w ≠ 0

/-- Classifier for the child-reaping machinery on X11 actions: a
`sigaction`-style handler registration or a `wait`/`waitpid` call. -/
def isReapingAction : XAction → Bool
  | .installSignalHandler _ => true
  | .reapChild => true
  | _ => false

/-- Classifier for the child-reaping machinery on wlroots actions. -/
def isWlReapingAction : WlAction → Bool
  | .installSignalHandler _ => true
  | .reapChild => true
  | _ => false

/-- Concrete window_zero-variant state: home window 1 and one other
window 2 on a 1920×1080 screen, hotkey keycode 133 (Super_L). -/
def x1DemoState : X1State :=
  { windowZero := 1, superKeyDown := false, windows := [1, 2],
    screenW := 1920, screenH := 1080, homeKeycode := 133,
    homePath := "/bin/home" }

/-- Concrete window_zero-variant state: home window 4 and no other
window. -/
def x1SoloState : X1State :=
  { windowZero := 4, superKeyDown := false, windows := [4],
    screenW := 1920, screenH := 1080, homeKeycode := 133,
    homePath := "/bin/home" }

/-- Concrete timer-variant state: initial window 1 and one other
window 2, hotkey currently up. -/
def x2DemoState : X2State :=
  { clientWindows := [1, 2], initialWindow := 1, superPressed := false,
    pressStart := 0, screenW := 1920, screenH := 1080 }

/-- Concrete wlroots compositor state: one window, the home window (its
pid 5 equals `home_pid`), with `first_window` already consumed. -/
def wlHomeOnlyState : KioskCompositor :=
  { windows := [⟨1, true, 5⟩], firstWindow := false, homePid := 5 }

/-! ## Helper lemmas -/

theorem countP_pid_map_of_pid_eq (h : Nat) (f : KioskWindow → KioskWindow)
    (hf : ∀ w, (f w).pid = w.pid) (l : List KioskWindow) :
    (l.map f).countP (fun w => w.pid == h) =
      l.countP (fun w => w.pid == h) := by
  induction l with
  | nil => rfl
  | cons a t ih =>
    simp only [List.map_cons, List.countP_cons, hf, ih]

theorem countP_filter_le (p q : KioskWindow → Bool) (l : List KioskWindow) :
    (l.filter q).countP p ≤ l.countP p := by
  induction l with
  | nil => exact Nat.le_refl 0
  | cons a t ih =>
    by_cases hq : q a
    · by_cases hp : p a
      · simp [List.filter_cons, List.countP_cons, hq, hp]
        omega
      · simp [List.filter_cons, List.countP_cons, hq, hp]
        omega
    · simp only [List.filter_cons, if_neg hq, List.countP_cons]
      by_cases hp : p a
      · simp only [hp, if_pos rfl]
        omega
      · simp [hp]
        omega

theorem wlInv_init (p : Nat) (hp : 0 < p) : wlInv (wlInit p) := by
  refine ⟨hp, ?_, ?_⟩ <;> simp [wlInit, homeCount]

theorem wlInv_step (c : KioskCompositor) (e : WlEvent) (h : wlInv c) :
    wlInv (wlStep c e).1 := by
  obtain ⟨hpid, hle, hfirst⟩ := h
  cases e with
  | newXdgSurface wid top =>
    cases top with
    | false => exact ⟨hpid, hle, hfirst⟩
    | true =>
      by_cases hfw : c.firstWindow = true
      · have h0 := hfirst hfw
        have hcnt : homeCount (newXdgSurface c wid true) = homeCount c + 1 := by
          simp [newXdgSurface, homeCount, List.countP_cons, hfw]
        refine ⟨hpid, ?_, ?_⟩
        · show homeCount (newXdgSurface c wid true) ≤ 1
          rw [hcnt, h0]
        · intro hcontra
          simp [wlStep, newXdgSurface, hfw] at hcontra
      · have hfw' : c.firstWindow = false := by simpa using hfw
        have hcnt : homeCount (newXdgSurface c wid true) = homeCount c := by
          have hne : (0 == c.homePid) = false := by
            simp only [beq_eq_false_iff_ne, ne_eq]
            omega
          simp [newXdgSurface, homeCount, List.countP_cons, hfw', hne]
        refine ⟨hpid, ?_, ?_⟩
        · show homeCount (newXdgSurface c wid true) ≤ 1
          rw [hcnt]; exact hle
        · intro hcontra
          simp [wlStep, newXdgSurface, hfw'] at hcontra
  | mapWindow wid =>
    have hcnt : homeCount (wlStep c (.mapWindow wid)).1 = homeCount c := by
      simp only [wlStep, wlSetMapped, homeCount]
      exact countP_pid_map_of_pid_eq c.homePid _
        (fun w => by by_cases h : w.wid = wid <;> simp [h]) c.windows
    exact ⟨hpid, by rw [hcnt]; exact hle, fun hf => by
      rw [hcnt]; exact hfirst (by simpa [wlStep, wlSetMapped] using hf)⟩
  | unmapWindow wid =>
    have hcnt : homeCount (wlStep c (.unmapWindow wid)).1 = homeCount c := by
      simp only [wlStep, wlSetMapped, homeCount]
      exact countP_pid_map_of_pid_eq c.homePid _
        (fun w => by by_cases h : w.wid = wid <;> simp [h]) c.windows
    exact ⟨hpid, by rw [hcnt]; exact hle, fun hf => by
      rw [hcnt]; exact hfirst (by simpa [wlStep, wlSetMapped] using hf)⟩
  | destroyWindow wid =>
    have hcnt : homeCount (wlStep c (.destroyWindow wid)).1 ≤ homeCount c :=
      countP_filter_le _ _ c.windows
    exact ⟨hpid, Nat.le_trans hcnt hle, fun hf => by
      have := hfirst (by simpa [wlStep, windowDestroy] using hf)
      omega⟩

theorem wlInv_of_reachable (c : KioskCompositor) (h : WlReachable c) :
    wlInv c := by
  induction h with
  | init p hp => exact wlInv_init p hp
  | step c e _ ih => exact wlInv_step c e ih

theorem x2Run_acc (es : List X2Event) (s : X2State) (a0 : List XAction) :
    es.foldl (fun acc e =>
        let r := x2Step acc.1 e
        (r.1, acc.2 ++ r.2)) (s, a0) =
      ((x2Run s es).1, a0 ++ (x2Run s es).2) := by
  induction es generalizing s a0 with
  | nil => simp [x2Run]
  | cons e es ih =>
    simp only [x2Run, List.foldl_cons]
    rw [ih, ih ((x2Step s e).1) ((s, []).2 ++ (x2Step s e).2)]
    simp

theorem x2Run_cons (s : X2State) (e : X2Event) (es : List X2Event) :
    x2Run s (e :: es) =
      ((x2Run (x2Step s e).1 es).1,
        (x2Step s e).2 ++ (x2Run (x2Step s e).1 es).2) := by
  exact x2Run_acc es (x2Step s e).1 (x2Step s e).2

theorem x2Run_append (s : X2State) (es1 es2 : List X2Event) :
    x2Run s (es1 ++ es2) =
      ((x2Run (x2Run s es1).1 es2).1,
        (x2Run s es1).2 ++ (x2Run (x2Run s es1).1 es2).2) := by
  induction es1 generalizing s with
  | nil => simp [x2Run]
  | cons e es ih =>
    rw [List.cons_append, x2Run_cons, x2Run_cons, ih]
    simp [List.append_assoc]

theorem x2Run_hold (s : X2State) (t0 : Nat) (es : List X2Event)
    (hp : s.superPressed = true) (ht : s.pressStart = t0)
    (hes : ∀ e ∈ es, x2HoldEvent t0 e = true) :
    x2Run s es = (s, []) := by
  induction es with
  | nil => rfl
  | cons e es ih =>
    have he := hes e (List.mem_cons_self e es)
    have hstep : x2Step s e = (s, []) := by
      cases e with
      | keyPress sym now =>
        simp [x2Step, x2HandleKeyPress, hp]
      | tick now =>
        have hlt : ¬ 2000 ≤ now - t0 := by
          simp only [x2HoldEvent, decide_eq_true_eq] at he
          omega
        simp [x2Step, hp, ht, hlt]
      | mapRequest w => simp [x2HoldEvent] at he
      | configureRequest w => simp [x2HoldEvent] at he
      | destroyNotify w => simp [x2HoldEvent] at he
      | unmapNotify w se => simp [x2HoldEvent] at he
      | keyRelease sym now => simp [x2HoldEvent] at he
    rw [x2Run_cons, hstep]
    simpa using ih fun e' he' => hes e' (List.mem_cons_of_mem _ he')

theorem foldl_xErrorHandler_true (l : List Nat) :
    l.foldl xErrorHandler true = true := by
  induction l with
  | nil => rfl
  | cons a t ih =>
    simp only [List.foldl_cons, xErrorHandler]
    split <;> exact ih

theorem foldl_xErrorHandler_of_mem (l : List Nat) (b : Bool)
    (h : badAccess ∈ l) : l.foldl xErrorHandler b = true := by
  induction l generalizing b with
  | nil => cases h
  | cons a t ih =>
    rcases List.mem_cons.mp h with h1 | h2
    · subst h1
      simp only [List.foldl_cons, xErrorHandler, if_pos rfl]
      exact foldl_xErrorHandler_true t
    · simp only [List.foldl_cons]
      exact ih (xErrorHandler b a) h2

/-! ## Claims -/

/-- C1: in every reachable state of each window-manager implementation, at
most one live tracked window is marked as the home window — in the wlroots
compositor at most one `KioskWindow` has `pid == home_pid` (assigned via
the `first_window` flag), and in the X11 variants at most one window id is
stored as `window_zero` / `initial_window_` — and every event-loop
operation preserves this (reachability is closed under steps). -/
theorem c1_at_most_one_home :
    (∀ c : KioskCompositor, WlReachable c → homeCount c ≤ 1) ∧
    (∀ (s : X2State) (i j : Nat), x2IsHome s i → x2IsHome s j → i = j) ∧
    (∀ (s : X1State) (i j : Nat), x1IsHome s i → x1IsHome s j → i = j) := by
  refine ⟨fun c h => (wlInv_of_reachable c h).2.1, ?_, ?_⟩
  · rintro s i j ⟨hi, _⟩ ⟨hj, _⟩
    exact hi.symm.trans hj
  · rintro s i j ⟨hi, _⟩ ⟨hj, _⟩
    exact hi.symm.trans hj

/-- C1 witness: the invariant evaluated at the concrete reachable state in
which the home surface has just been created. -/
theorem c1_at_most_one_home_witness :
    homeCount (wlStep (wlInit 5) (WlEvent.newXdgSurface 1 true)).1 ≤ 1 :=
  c1_at_most_one_home.1 _
    (WlReachable.step (wlInit 5) (WlEvent.newXdgSurface 1 true)
      (WlReachable.init 5 (by decide)))

/-- C4 counterexample: a resize-only configure request (mask `CWWidth ∪
CWHeight`, requesting 400×300) against a window previously at (10,20):
the handler leaves the origin at (10,20) instead of setting the geometry
to the full screen geometry (0,0,1920,1080), so the claim that every
configure request is answered with the full output geometry including
origin 0,0 is false. -/
theorem c4_counterexample :
    x2GeomAfterConfigure 1920 1080
        { window := 2, reqX := 5, reqY := 5, reqWidth := 400,
          reqHeight := 300, reqBorder := 1, maskX := false, maskY := false,
          maskWidth := true, maskHeight := true, maskBorder := false,
          maskSibling := false, maskStack := false, above := 0, detail := 0 }
        { x := 10, y := 20, width := 400, height := 300, border := 0 } =
      { x := 10, y := 20, width := 1920, height := 1080, border := 0 } ∧
    ({ x := 10, y := 20, width := 1920, height := 1080, border := 0 } :
        Geometry) ≠
      { x := 0, y := 0, width := 1920, height := 1080, border := 0 } := by
  decide

/-- C4 amended: for every configure request, each geometry component
selected by the client's change mask is set by the timer-based and the
earlier Xlib handlers to the fullscreen value (x = 0, y = 0,
width/height = the screen size, border = 0) — never to the client's
requested value — while components outside the mask are left unchanged;
the window_zero handler does the same for the x, y, width and height
components, but a masked border width there is set to whatever
uninitialized value `gb` the stack holds (so no border-0 guarantee), and
in every variant the client's requested size and position values are
never applied. -/
theorem c4_amended_masked_fullscreen :
    ∀ (sw sh : Nat) (r : ConfigRequest) (g : Geometry),
      x2GeomAfterConfigure sw sh r g =
        { x := if r.maskX then 0 else g.x,
          y := if r.maskY then 0 else g.y,
          width := if r.maskWidth then sw else g.width,
          height := if r.maskHeight then sh else g.height,
          border := if r.maskBorder then 0 else g.border } ∧
      x3GeomAfterConfigure sw sh r g =
        { x := if r.maskX then 0 else g.x,
          y := if r.maskY then 0 else g.y,
          width := if r.maskWidth then sw else g.width,
          height := if r.maskHeight then sh else g.height,
          border := if r.maskBorder then 0 else g.border } ∧
      (∀ gb gs gst : Nat,
        x1GeomAfterConfigure sw sh gb gs gst r g =
          { x := if r.maskX then 0 else g.x,
            y := if r.maskY then 0 else g.y,
            width := if r.maskWidth then sw else g.width,
            height := if r.maskHeight then sh else g.height,
            border := if r.maskBorder then gb else g.border }) := by
  intro sw sh r g
  refine ⟨?_, ?_, ?_⟩
  · by_cases hss : (r.maskSibling || r.maskStack) = true <;>
      simp [x2GeomAfterConfigure, x2HandleConfigureRequest, applyChanges, hss]
  · simp [x3GeomAfterConfigure, x3HandleConfigureRequest, applyChanges]
  · intro gb gs gst
    simp [x1GeomAfterConfigure, x1HandleConfigureRequest, applyChanges]

/-- C6: when the X server reports `BadAccess` for the request that asks
for exclusive window-management rights (another window manager owns the
display), startup aborts before the event loop is entered, with a
diagnostic on standard error and exit status 1. -/
theorem c6_bad_access_aborts (errors : List Nat) (h : badAccess ∈ errors) :
    (x2MainStartup errors).exitCode = 1 ∧
    (x2MainStartup errors).enteredEventLoop = false ∧
    (x2MainStartup errors).diagnostic ≠ none := by
  have hflag : errors.foldl xErrorHandler false = true :=
    foldl_xErrorHandler_of_mem errors false h
  simp [x2MainStartup, x2RunStartup, hflag]

/-- C6 witness: startup with exactly one reported error, `BadAccess`. -/
theorem c6_bad_access_aborts_witness :
    (x2MainStartup [badAccess]).exitCode = 1 ∧
    (x2MainStartup [badAccess]).enteredEventLoop = false ∧
    (x2MainStartup [badAccess]).diagnostic ≠ none :=
  c6_bad_access_aborts [badAccess] (by decide)

/-- C8: an auto-repeat keydown of the hotkey while the hotkey state is
already held leaves the recorded press timestamp and the rest of the
hotkey state unchanged — in the wlroots handler the whole keyboard state
is returned unmodified, and in the timer-based Xlib handler the state is
returned unmodified — so key repeats never restart the hold timer. -/
theorem c8_repeat_keydown_preserves_timer :
    (∀ (kb : KioskKeyboard) (c : KioskCompositor) (sym kc tm now : Nat),
        isHotkeySym sym = true → kb.enterHeld = true →
        (keyboardHandleKey kb c [sym] kc tm true now).1 = kb) ∧
    (∀ (s : X2State) (now : Nat), s.superPressed = true →
        x2HandleKeyPress s xkSuperL now = s) := by
  constructor
  · intro kb c sym kc tm now hhot hheld
    by_cases hth : 2 ≤ now - kb.enterPressTime <;>
      simp [keyboardHandleKey, wlKeySymStep, hhot, hheld, hth]
  · intro s now hp
    simp [x2HandleKeyPress, hp]

/-- C8 witness: a repeat keydown at second 1 of a hold that started at
second 0 leaves the keyboard state untouched. -/
theorem c8_repeat_keydown_preserves_timer_witness :
    (keyboardHandleKey ⟨true, 0⟩ (wlInit 5) [xkbKeyReturn] 28 1000 true 1).1 =
      ⟨true, 0⟩ :=
  c8_repeat_keydown_preserves_timer.1 ⟨true, 0⟩ (wlInit 5) xkbKeyReturn 28 1000 1
    (by decide) rfl

/-- C9: when the timer-based X11 hold trigger fires, every tracked window
other than the initial (home) window is, within the same
`close_all_except_initial` pass, sent the polite `WM_DELETE_WINDOW`
client message immediately followed by a forceful `XDestroyWindow`, with
no other action (hence no grace period) between the two. -/
theorem c9_polite_close_then_forced_destroy :
    ∀ (windows : List Nat) (initial w : Nat),
      initial ≠ 0 → w ∈ windows → w ≠ initial →
      ∃ pre post, x2CloseAllExceptInitial windows initial =
        pre ++ [XAction.sendDeleteMessage w, XAction.destroyWindow w] ++
          post := by
  intro windows initial w hinit hmem hne
  have hwne : windows ≠ [] := List.ne_nil_of_mem hmem
  have hmemf : w ∈ windows.filter (fun v => v ≠ initial) := by
    simp only [List.mem_filter, decide_eq_true_eq]
    exact ⟨hmem, hne⟩
  obtain ⟨l1, l2, hsplit⟩ := List.append_of_mem hmemf
  refine ⟨l1.flatMap fun v =>
      [XAction.sendDeleteMessage v, XAction.destroyWindow v],
    (l2.flatMap fun v =>
      [XAction.sendDeleteMessage v, XAction.destroyWindow v]) ++
        [XAction.flushDisplay] ++
        (if initial ≠ 0 then
          [XAction.raiseWindow initial, XAction.setFocus initial]
        else []), ?_⟩
  simp only [x2CloseAllExceptInitial]
  rw [if_neg (not_or.mpr ⟨hinit, hwne⟩), hsplit]
  simp [List.flatMap_append, List.append_assoc]

/-- C9 witness: with windows 1 and 2 tracked and window 1 initial, the
close-all pass contains the adjacent polite-close/force-destroy pair for
window 2. -/
theorem c9_polite_close_then_forced_destroy_witness :
    ∃ pre post, x2CloseAllExceptInitial [1, 2] 1 =
      pre ++ [XAction.sendDeleteMessage 2, XAction.destroyWindow 2] ++
        post :=
  c9_polite_close_then_forced_destroy [1, 2] 1 2 (by decide) (by decide)
    (by decide)

/-- C10: in the wlroots handler, every hotkey (Return / keypad Enter) key
event that does not itself fire the close-all — the initial keydown, any
keydown before the 2-second threshold, and every key release — is
forwarded to the focused client through the seat, and is the only action
such an event issues. -/
theorem c10_nontriggering_hotkey_forwarded :
    ∀ (kb : KioskKeyboard) (c : KioskCompositor) (sym kc tm now : Nat),
      isHotkeySym sym = true →
      ((kb.enterHeld = false →
          (keyboardHandleKey kb c [sym] kc tm true now).2 =
            [WlAction.forwardKey tm kc true]) ∧
        (kb.enterHeld = true → now - kb.enterPressTime < 2 →
          (keyboardHandleKey kb c [sym] kc tm true now).2 =
            [WlAction.forwardKey tm kc true]) ∧
        (keyboardHandleKey kb c [sym] kc tm false now).2 =
          [WlAction.forwardKey tm kc false]) := by
  intro kb c sym kc tm now hhot
  refine ⟨?_, ?_, ?_⟩
  · intro hheld
    simp [keyboardHandleKey, wlKeySymStep, hhot, hheld, Nat.sub_self]
  · intro hheld hlt
    have hth : ¬ 2 ≤ now - kb.enterPressTime := by omega
    simp [keyboardHandleKey, wlKeySymStep, hhot, hheld, hth]
  · simp [keyboardHandleKey, wlKeySymStep, hhot]

/-- C10 witness: a fresh hotkey keydown at second 3 is forwarded to the
focused client. -/
theorem c10_nontriggering_hotkey_forwarded_witness :
    (keyboardHandleKey ⟨false, 0⟩ (wlInit 5) [xkbKeyReturn] 28 500 true 3).2 =
      [WlAction.forwardKey 500 28 true] :=
  (c10_nontriggering_hotkey_forwarded ⟨false, 0⟩ (wlInit 5) xkbKeyReturn 28 500
    3 (by decide)).1 rfl

/-- C2 counterexample: in the window_zero variant, a hotkey press at time
0 released at time 100 ms — strictly before the 2-second threshold —
nonetheless performs the close-all pass: a `WM_DELETE_WINDOW` close
request is sent to the non-home window 2, contradicting the claim that a
gesture released before the threshold performs no close-all action. -/
theorem c2_counterexample :
    XAction.sendDeleteMessage 2 ∈
      (x1Run x1DemoState
        [X1Event.keyPress 133 0, X1Event.keyRelease 133 100]).2 ∧
    (100 : Nat) < 2000 := by
  decide

/-- C2 amended: only the timer-based Xlib variant implements the
2-second-hold semantics, and there (1) a gesture whose key is released
strictly before the threshold — auto-repeat keydowns and sub-threshold
timer ticks in between included — performs no action at all, and (2) a
gesture held until a timer tick at or past the threshold performs exactly
one `close_all_except_initial` pass, with repeat keydowns before the
trigger never restarting the timer; (3) the window_zero variant instead
fires its close-all pass immediately on the first non-repeat keydown,
regardless of hold duration; and (4) the wlroots compositor fires a
further close-all pass on every hotkey keydown event arriving 2 s or more
after the initial press, not exactly one per gesture. -/
theorem c2_amended_hold_semantics :
    (∀ (s : X2State) (t0 tr : Nat) (es : List X2Event),
        s.superPressed = false →
        (∀ e ∈ es, x2HoldEvent t0 e = true) →
        x2Run s (X2Event.keyPress xkSuperL t0 ::
            (es ++ [X2Event.keyRelease xkSuperL tr])) =
          ({ s with superPressed := false, pressStart := t0 }, [])) ∧
    (∀ (s : X2State) (t0 tf : Nat) (es : List X2Event),
        s.superPressed = false →
        (∀ e ∈ es, x2HoldEvent t0 e = true) →
        2000 ≤ tf - t0 →
        x2Run s (X2Event.keyPress xkSuperL t0 ::
            (es ++ [X2Event.tick tf])) =
          ({ s with superPressed := false, pressStart := t0 },
            x2CloseAllExceptInitial s.clientWindows s.initialWindow)) ∧
    (∀ (s : X1State) (t : Nat), s.superKeyDown = false →
        x1Step s (X1Event.keyPress s.homeKeycode t) =
          ({ s with superKeyDown := true },
            x1CloseAllOtherWindows s ++
              (if s.windowZero ≠ 0 then
                [XAction.raiseWindow s.windowZero,
                  XAction.setFocus s.windowZero]
              else []))) ∧
    (∀ (kb : KioskKeyboard) (c : KioskCompositor) (sym kc tm now : Nat),
        isHotkeySym sym = true → kb.enterHeld = true →
        2 ≤ now - kb.enterPressTime →
        keyboardHandleKey kb c [sym] kc tm true now =
          (kb, wlCloseAllExceptHome c)) := by
  refine ⟨?_, ?_, ?_, ?_⟩
  · intro s t0 tr es hs hes
    have hstep : x2Step s (X2Event.keyPress xkSuperL t0) =
        ({ s with superPressed := true, pressStart := t0 }, []) := by
      simp [x2Step, x2HandleKeyPress, hs]
    have hhold := x2Run_hold { s with superPressed := true, pressStart := t0 }
      t0 es rfl rfl hes
    rw [x2Run_cons, hstep, x2Run_append, hhold]
    simp [x2Run, x2Step, x2HandleKeyRelease]
  · intro s t0 tf es hs hes hth
    have hstep : x2Step s (X2Event.keyPress xkSuperL t0) =
        ({ s with superPressed := true, pressStart := t0 }, []) := by
      simp [x2Step, x2HandleKeyPress, hs]
    have hhold := x2Run_hold { s with superPressed := true, pressStart := t0 }
      t0 es rfl rfl hes
    rw [x2Run_cons, hstep, x2Run_append, hhold]
    simp [x2Run, x2Step, hth]
  · intro s t hs
    simp [x1Step, hs]
  · intro kb c sym kc tm now hhot hheld hth
    simp [keyboardHandleKey, wlKeySymStep, hhot, hheld, hth]

/-- C2 witness: a gesture pressed at 0 ms, with a repeat keydown at
600 ms and a sub-threshold tick at 1000 ms, held until the tick at
2500 ms, performs exactly one close-all pass over windows 1 and 2. -/
theorem c2_amended_hold_semantics_witness :
    x2Run x2DemoState
      (X2Event.keyPress xkSuperL 0 ::
        ([X2Event.keyPress xkSuperL 600, X2Event.tick 1000] ++
          [X2Event.tick 2500])) =
      (x2DemoState, x2CloseAllExceptInitial [1, 2] 1) :=
  c2_amended_hold_semantics.2.1 _ 0 2500 _ rfl (by decide) (by decide)

/-- C3 counterexample: in the wlroots compositor, destroying the home
window (the sole window, whose `pid` equals `home_pid`) issues no action
at all — in particular not the claimed single relaunch of the home
application path. -/
theorem c3_counterexample :
    (⟨1, true, 5⟩ : KioskWindow) ∈ wlHomeOnlyState.windows ∧
    wlHomeOnlyState.homePid = 5 ∧
    (wlStep wlHomeOnlyState (WlEvent.destroyWindow 1)).2 = [] := by
  decide

/-- C3 amended: only the window_zero variant respawns the home
application: when the window stored as `window_zero` is destroyed it
performs exactly one launch of the home path and clears `window_zero` in
that same step (so no existing window is marked home then), but the next
window to issue a `MapRequest` — whichever process created it — becomes
the new home window; the wlroots compositor issues no action on window
destruction, and the timer-based Xlib variant never issues a launch when
a window is destroyed. -/
theorem c3_amended_respawn :
    (∀ (s : X1State) (w : Nat), s.windowZero = w → w ≠ 0 →
        (x1Step s (X1Event.destroyNotify w)).2 =
          [XAction.launch s.homePath] ∧
        (x1Step s (X1Event.destroyNotify w)).1.windowZero = 0) ∧
    (∀ (s : X1State) (w : Nat), s.windowZero = 0 →
        (x1Step s (X1Event.mapRequest w)).1.windowZero = w) ∧
    (∀ (c : KioskCompositor) (w : Nat),
        (wlStep c (WlEvent.destroyWindow w)).2 = []) ∧
    (∀ (s : X2State) (w : Nat) (path : String),
        XAction.launch path ∉ (x2HandleWindowDestroyed s w).2) := by
  refine ⟨?_, ?_, ?_, ?_⟩
  · intro s w hw _hne
    subst hw
    simp [x1Step]
  · intro s w h0
    simp [x1Step, h0]
  · intro c w
    rfl
  · intro s w path
    by_cases hmem : w ∈ s.clientWindows
    · by_cases hrest : s.clientWindows.erase w = []
      · simp [x2HandleWindowDestroyed, hmem, hrest]
      · simp [x2HandleWindowDestroyed, hmem, hrest]
    · simp [x2HandleWindowDestroyed, hmem]

/-- C3 witness: destroying window 4, the current `window_zero`, issues
exactly one launch of the home path and clears `window_zero`. -/
theorem c3_amended_respawn_witness :
    (x1Step x1SoloState (X1Event.destroyNotify 4)).2 =
      [XAction.launch "/bin/home"] ∧
    (x1Step x1SoloState (X1Event.destroyNotify 4)).1.windowZero = 0 :=
  c3_amended_respawn.1 x1SoloState 4 rfl (by decide)

theorem isReapingAction_x2CloseAll (windows : List Nat) (initial : Nat)
    (a : XAction) (ha : a ∈ x2CloseAllExceptInitial windows initial) :
    isReapingAction a = false := by
  simp only [x2CloseAllExceptInitial] at ha
  split_ifs at ha with h1 h2
  · simp at ha
  · rcases List.mem_append.mp ha with h | h
    · rcases List.mem_append.mp h with h | h
      · rcases List.mem_flatMap.mp h with ⟨w, _, hw⟩
        simp at hw
        rcases hw with rfl | rfl <;> rfl
      · simp at h
        subst h
        rfl
    · simp at h
      rcases h with rfl | rfl <;> rfl
  · rcases List.mem_append.mp ha with h | h
    · rcases List.mem_append.mp h with h | h
      · rcases List.mem_flatMap.mp h with ⟨w, _, hw⟩
        simp at hw
        rcases hw with rfl | rfl <;> rfl
      · simp at h
        subst h
        rfl
    · simp at h

theorem wlKeyFold_reaping (c : KioskCompositor) (pr : Bool) (now : Nat)
    (syms : List Nat) (acc : KioskKeyboard × Bool × List WlAction)
    (hacc : ∀ a ∈ acc.2.2, isWlReapingAction a = false) :
    ∀ a ∈ (syms.foldl (wlKeySymStep c pr now) acc).2.2,
      isWlReapingAction a = false := by
  induction syms generalizing acc with
  | nil => exact hacc
  | cons sym syms ih =>
    refine ih _ ?_
    intro a ha
    obtain ⟨kb, handled, acts⟩ := acc
    simp only [wlKeySymStep] at ha
    split_ifs at ha <;>
      first
        | exact hacc a ha
        | (rcases List.mem_append.mp ha with h | h
           · exact hacc a h
           · rcases List.mem_map.mp h with ⟨w, _, rfl⟩
             rfl)

/-- C7: no implementation registers asynchronous child-termination
notification or reaps children: the process-level startup traces of all
three implementations contain no signal-handler installation and no
wait-style reap, and no event-loop handler (the wlroots surface handlers,
the wlroots keyboard handler, and every step of either Xlib loop) ever
issues one, so a terminated child is never reaped. -/
theorem c7_no_child_reaping :
    (∀ (socket app : String) (a : WlAction),
        a ∈ wlMainProcessActions socket app → isWlReapingAction a = false) ∧
    (∀ (app : String) (a : XAction),
        a ∈ x2RunProcessActions app → isReapingAction a = false) ∧
    (∀ (app : String) (a : XAction),
        a ∈ x1MainProcessActions app → isReapingAction a = false) ∧
    (∀ (c : KioskCompositor) (e : WlEvent), (wlStep c e).2 = []) ∧
    (∀ (kb : KioskKeyboard) (c : KioskCompositor) (syms : List Nat)
        (kc tm : Nat) (pr : Bool) (now : Nat) (a : WlAction),
        a ∈ (keyboardHandleKey kb c syms kc tm pr now).2 →
        isWlReapingAction a = false) ∧
    (∀ (s : X1State) (e : X1Event) (a : XAction),
        a ∈ (x1Step s e).2 → isReapingAction a = false) ∧
    (∀ (s : X2State) (e : X2Event) (a : XAction),
        a ∈ (x2Step s e).2 → isReapingAction a = false) := by
  refine ⟨?_, ?_, ?_, ?_, ?_, ?_, ?_⟩
  · intro socket app a ha
    simp [wlMainProcessActions] at ha
    rcases ha with rfl | rfl | rfl <;> rfl
  · intro app a ha
    simp [x2RunProcessActions] at ha
    rcases ha with rfl | rfl | rfl | rfl <;> rfl
  · intro app a ha
    simp [x1MainProcessActions] at ha
    rcases ha with rfl | rfl | rfl <;> rfl
  · intro c e
    cases e <;> rfl
  · intro kb c syms kc tm pr now a ha
    simp only [keyboardHandleKey] at ha
    split_ifs at ha
    · rcases List.mem_append.mp ha with h | h
      · exact wlKeyFold_reaping c pr now syms (kb, false, [])
          (by intro a ha; simp at ha) a h
      · simp at h
        subst h
        rfl
    · exact wlKeyFold_reaping c pr now syms (kb, false, [])
        (by intro a ha; simp at ha) a ha
  · intro s e a ha
    cases e with
    | mapRequest w =>
      simp only [x1Step] at ha
      simp at ha
      rcases ha with rfl | rfl | rfl | rfl <;> rfl
    | keyPress kc t =>
      simp only [x1Step] at ha
      split_ifs at ha with h1 h2 h3
      · rcases List.mem_append.mp ha with h | h
        · rcases List.mem_map.mp h with ⟨w, _, rfl⟩
          rfl
        · simp at h
          rcases h with rfl | rfl <;> rfl
      · rcases List.mem_append.mp ha with h | h
        · rcases List.mem_map.mp h with ⟨w, _, rfl⟩
          rfl
        · simp at h
      · simp at ha
      · simp at ha
    | keyRelease kc t =>
      simp only [x1Step] at ha
      simp at ha
    | destroyNotify w =>
      simp only [x1Step] at ha
      split_ifs at ha with h
      · simp at ha
        subst ha
        rfl
      · simp at ha
    | configureRequest w =>
      simp only [x1Step] at ha
      simp at ha
      subst ha
      rfl
  · intro s e a ha
    cases e with
    | mapRequest w =>
      simp only [x2Step, x2HandleMapRequest] at ha
      simp at ha
      rcases ha with rfl | rfl | rfl | rfl <;> rfl
    | configureRequest w =>
      simp only [x2Step] at ha
      simp at ha
      subst ha
      rfl
    | destroyNotify w =>
      simp only [x2Step, x2HandleWindowDestroyed] at ha
      split_ifs at ha with h1 h2
      · simp at ha
        subst ha
        rfl
      · simp at ha
        rcases ha with rfl | rfl <;> rfl
      · simp at ha
    | unmapNotify w se =>
      simp only [x2Step] at ha
      split_ifs at ha with h0
      · simp at ha
      · simp only [x2HandleWindowDestroyed] at ha
        split_ifs at ha with h1 h2
        · simp at ha
          subst ha
          rfl
        · simp at ha
          rcases ha with rfl | rfl <;> rfl
        · simp at ha
    | keyPress sym now =>
      simp only [x2Step] at ha
      simp at ha
    | keyRelease sym now =>
      simp only [x2Step] at ha
      simp at ha
    | tick now =>
      simp only [x2Step] at ha
      split_ifs at ha with h
      · exact isReapingAction_x2CloseAll s.clientWindows s.initialWindow a ha
      · simp at ha

/-- C7 witness: the wlroots startup trace action `runEventLoop` is not a
reaping action. -/
theorem c7_no_child_reaping_witness :
    isWlReapingAction WlAction.runEventLoop = false :=
  c7_no_child_reaping.1 "wayland-1" "/bin/home" WlAction.runEventLoop
    (by decide)

end DendyWM
